import Mathlib

/-!
Verification development for the agent-orchestrator repository.

This file gives a shallow embedding, in Lean, of the phase-orchestration core:
the SQLite-backed StateManager (src/orchestrator/state.py) together with the
schema CHECK constraints it runs against (src/orchestrator/schema.py), the
threshold gate of the PhaseVerifier (src/orchestrator/verifier.py), the
JSON-handling tail of CopilotCLIInterface.execute_spec
(src/agents/copilot_interface.py), and the PhaseExecutor control loop
(src/orchestrator/executor.py).

Modelling conventions:
- The SQLite database is a record of lists of rows (one list per table).
- Python exceptions are an explicit error type; stateful code runs in
  ExceptT over a state monad, so that writes committed before an exception
  survive it, exactly as committed sqlite transactions do.
- sqlite CHECK constraints are enforced at each modelled INSERT/UPDATE: a
  violating statement raises (DatabaseError in state.py wraps every sqlite
  error) and performs no write.
- Wall-clock timestamps are abstracted to a monotone logical counter, and
  uuid4 identifiers to deterministic fresh names; file-system writes
  (spec files, logs, reports) are not part of the store and are dropped.
- External collaborators (the Copilot CLI, the LLM, RAG retrieval, git) are
  parameters: their per-call outcomes are inputs to the embedded functions.
-/

namespace Orchestrator

/-- Python-level error values that the embedded code can raise.
DatabaseError is the wrapper state.py raises around any sqlite error
(including CHECK-constraint violations); AttributeError models access to a
missing attribute on a pydantic model; TypeError models a call with a
mismatched signature; the generic case models plain raise Exception. -/
inductive PyErr where
  | databaseError (msg : String)
  | attributeError (msg : String)
  | typeError (msg : String)
  | valueError (msg : String)
  | genericError (msg : String)
deriving DecidableEq, Repr

/-- Row of the runs table (schema.py:19-32), restricted to the columns the
orchestration logic reads or writes. -/
structure RunRow where
  run_id : String
  status : String
  total_phases : Nat
  completed_phases : Nat
  current_phase_id : Option String
  error_message : Option String
deriving DecidableEq, Repr

/-- Row of the phases table (schema.py:35-52), restricted to the columns the
orchestration logic reads or writes. -/
structure PhaseRow where
  phase_id : String
  run_id : String
  phase_number : Nat
  title : String
  status : String
  retry_count : Nat
  max_retries : Nat
deriving DecidableEq, Repr

/-- Row of the executions table (schema.py:55-68). started_at is the logical
creation time (a monotone counter standing in for the wall clock). -/
structure ExecutionRow where
  execution_id : String
  phase_id : String
  pass_number : Nat
  started_at : Nat
  status : String
  error_message : Option String
deriving DecidableEq, Repr

/-- Row of the findings table (schema.py:71-83), restricted to the fields the
claims are about. -/
structure FindingRow where
  finding_id : String
  execution_id : String
  severity : String
  category : String
  title : String
deriving DecidableEq, Repr

/-- Row of the artifacts table (schema.py:86-98). -/
structure ArtifactRow where
  artifact_id : String
  run_id : String
  artifact_type : String
deriving DecidableEq, Repr

/-- Row of the manual_interventions table (schema.py:101-110). -/
structure InterventionRow where
  intervention_id : String
  phase_id : String
  reason : String
  action_taken : Option String
  notes : Option String
  resolved_at_set : Bool
deriving DecidableEq, Repr

/-- Audit record of one committed write to phases.status: which phase, which
status value, and the retry_count of the row at the moment of the write.
This instruments the embedding so that properties phrased at the moment a
status is set can be stated over the final state. -/
structure StatusEvent where
  phase_id : String
  status : String
  retry_count_at : Nat
deriving DecidableEq, Repr

/-- The durable store: one list per table of the schema, plus the
phases.status audit trace. -/
structure DB where
  runs : List RunRow
  phases : List PhaseRow
  executions : List ExecutionRow
  findings : List FindingRow
  artifacts : List ArtifactRow
  interventions : List InterventionRow
  phase_status_trace : List StatusEvent
deriving DecidableEq, Repr

/-- Stateful computations over the store that can raise Python errors.
The state is threaded underneath the exception layer, so raising preserves
all writes committed before the raise. -/
abbrev Orc := ExceptT PyErr (StateM DB)

/-- Run an embedded computation on an initial store, returning its outcome
(value or raised error) and the final store. -/
def runOrc {α} (x : Orc α) (db : DB) : Except PyErr α × DB := (x.run).run db

/-! ### Schema CHECK constraints (schema.py CREATE_TABLES_SQL) -/

/-- Allowed values of runs.status (schema.py:23). -/
def runStatusCheckValues : List String :=
  ["planning", "executing", "paused", "completed", "failed", "aborted"]

/-- Allowed values of phases.status (schema.py:42). Note that this CHECK
does not include the value paused, although the executor writes it and the
specification lists it as a phase status. -/
def phaseStatusCheckValues : List String :=
  ["pending", "in_progress", "completed", "failed", "skipped"]

/-- Allowed values of executions.status (schema.py:61). -/
def executionStatusCheckValues : List String := ["running", "completed", "failed"]

/-- Allowed values of findings.severity (schema.py:74). -/
def severityCheckValues : List String := ["major", "medium", "minor"]

/-- Allowed values of findings.category (schema.py:75). -/
def categoryCheckValues : List String :=
  ["build", "test", "lint", "security", "spec_validation", "custom"]

/-- Allowed values of artifacts.artifact_type (schema.py:91). Note that the
executor also registers artifact types copilot_prompt, findings_report_md,
findings_report_json and feedback_spec, none of which appear here. -/
def artifactTypeCheckValues : List String :=
  ["phase_plan", "spec", "copilot_output", "findings_report", "verification_log"]

/-- Allowed values of manual_interventions.reason (schema.py:105). -/
def interventionReasonCheckValues : List String :=
  ["max_retries_exceeded", "user_requested", "critical_error"]

/-- Allowed non-null values of manual_interventions.action_taken
(schema.py:106). The executor instead writes the past-tense values resumed,
skipped, modified_spec and aborted. -/
def actionTakenCheckValues : List String := ["resume", "skip", "modify_spec", "abort"]

/-! ### StateManager operations (src/orchestrator/state.py) -/

/-- SELECT * FROM phases WHERE phase_id = ? (first match; phase_id is the
primary key). -/
def lookupPhase : List PhaseRow → String → Option PhaseRow
  | [], _ => none
  | p :: ps, pid => if p.phase_id = pid then some p else lookupPhase ps pid

/-- SELECT * FROM runs WHERE run_id = ?. -/
def lookupRun : List RunRow → String → Option RunRow
  | [], _ => none
  | r :: rs, rid => if r.run_id = rid then some r else lookupRun rs rid

/-- UPDATE phases SET status = ? WHERE phase_id = ? applied to the table. -/
def setStatusInPhases (phases : List PhaseRow) (pid s : String) : List PhaseRow :=
  phases.map fun p => if p.phase_id = pid then { p with status := s } else p

/-- Number of rows of the phases table belonging to the given run whose
status is completed (the derived quantity that runs.completed_phases is
supposed to track). -/
def completedCount : List PhaseRow → String → Nat
  | [], _ => 0
  | p :: ps, rid =>
      (if p.run_id = rid ∧ p.status = "completed" then 1 else 0) + completedCount ps rid

/-- The state change committed by a successful StateManager.update_phase_status
(state.py:245-287): write the status (recorded in the audit trace together
with the retry_count of the row at that moment), then, in the same
transaction, set runs.current_phase_id when the new status is in_progress,
or increment runs.completed_phases of the owning run when the new status is
completed. The owning run is looked up by phase_id; the status write does
not change run_id, so the lookup is done on the incoming table. -/
def applyPhaseStatusWrite (db : DB) (pid s : String) : DB :=
  let owner := lookupPhase db.phases pid
  let db1 : DB :=
    { db with
      phases := setStatusInPhases db.phases pid s
      phase_status_trace := db.phase_status_trace ++
        (match owner with
         | some p => [⟨pid, s, p.retry_count⟩]
         | none => []) }
  if s = "in_progress" then
    match owner with
    | some p =>
        { db1 with runs := db1.runs.map fun r =>
            if r.run_id = p.run_id then { r with current_phase_id := some pid } else r }
    | none => db1
  else if s = "completed" then
    match owner with
    | some p =>
        { db1 with runs := db1.runs.map fun r =>
            if r.run_id = p.run_id then { r with completed_phases := r.completed_phases + 1 } else r }
    | none => db1
  else db1

/-- StateManager.update_phase_status (state.py:245-287). The UPDATE is
subject to the phases.status CHECK constraint: an invalid status raises
DatabaseError and writes nothing. Timestamp columns are abstracted away. -/
def updatePhaseStatus (pid s : String) : Orc Unit := do
  if s ∈ phaseStatusCheckValues then
    modify fun db => applyPhaseStatusWrite db pid s
  else
    throw (PyErr.databaseError "CHECK constraint failed on phases.status")

/-- StateManager.update_run_status (state.py:115-134), subject to the
runs.status CHECK constraint. -/
def updateRunStatus (rid s : String) : Orc Unit := do
  if s ∈ runStatusCheckValues then
    modify fun db =>
      { db with runs := db.runs.map fun r => if r.run_id = rid then { r with status := s } else r }
  else
    throw (PyErr.databaseError "CHECK constraint failed on runs.status")

/-- StateManager.increment_phase_retry (state.py:289-305): add one to
phases.retry_count and return the new value (0 when the row is missing). -/
def incrementPhaseRetry (pid : String) : Orc Nat := do
  modify fun db =>
    { db with phases := db.phases.map fun p =>
        if p.phase_id = pid then { p with retry_count := p.retry_count + 1 } else p }
  let db ← get
  match lookupPhase db.phases pid with
  | some p => pure p.retry_count
  | none => pure 0

/-- StateManager.get_phase (state.py:218-230). -/
def getPhase (pid : String) : Orc (Option PhaseRow) := do
  let db ← get
  pure (lookupPhase db.phases pid)

/-- StateManager.get_run (state.py:101-113). -/
def getRun (rid : String) : Orc (Option RunRow) := do
  let db ← get
  pure (lookupRun db.runs rid)

/-- Insertion of one phase row into an ORDER BY phase_number result set,
keeping the original order among equal keys as sqlite and Python sorted do. -/
def insertByPhaseNumber (p : PhaseRow) : List PhaseRow → List PhaseRow
  | [] => [p]
  | q :: qs =>
      if p.phase_number ≤ q.phase_number then p :: q :: qs else q :: insertByPhaseNumber p qs

/-- Stable sort of phase rows by phase_number. -/
def sortPhasesByNumber : List PhaseRow → List PhaseRow
  | [] => []
  | p :: ps => insertByPhaseNumber p (sortPhasesByNumber ps)

/-- StateManager.get_phases_for_run (state.py:232-243):
SELECT * FROM phases WHERE run_id = ? ORDER BY phase_number. -/
def getPhasesForRun (rid : String) : Orc (List PhaseRow) := do
  let db ← get
  pure (sortPhasesByNumber (db.phases.filter fun p => p.run_id = rid))

/-- StateManager.get_current_phase (state.py:307-322): the first phase of the
run, by phase_number, whose status is in_progress (note: in_progress only,
and ORDER BY phase_number LIMIT 1). -/
def getCurrentPhase (rid : String) : Orc (Option PhaseRow) := do
  let db ← get
  pure ((sortPhasesByNumber (db.phases.filter fun p => p.run_id = rid)).find?
    fun p => p.status == "in_progress")

/-- StateManager.create_execution (state.py:326-360): INSERT a running
execution row. uuid4 is abstracted to a fresh deterministic identifier and
the wall clock to the table length, which grows monotonically. -/
def createExecution (pid : String) (passNumber : Nat) : Orc ExecutionRow := do
  let db ← get
  let row : ExecutionRow :=
    { execution_id := "exec_" ++ toString db.executions.length
      phase_id := pid
      pass_number := passNumber
      started_at := db.executions.length
      status := "running"
      error_message := none }
  modify fun db => { db with executions := db.executions ++ [row] }
  pure row

/-- StateManager.complete_execution (state.py:362-382). -/
def completeExecution (eid : String) : Orc Unit := do
  modify fun db =>
    { db with executions := db.executions.map fun e =>
        if e.execution_id = eid then { e with status := "completed" } else e }

/-- StateManager.fail_execution (state.py:384-398). -/
def failExecution (eid : String) (err : String) : Orc Unit := do
  modify fun db =>
    { db with executions := db.executions.map fun e =>
        if e.execution_id = eid then { e with status := "failed", error_message := some err } else e }

/-- SELECT * FROM executions WHERE phase_id = ? (state.py:400-411); the
table is kept in pass_number order by construction. -/
def executionsForPhase (db : DB) (pid : String) : List ExecutionRow :=
  db.executions.filter fun e => e.phase_id = pid

/-- StateManager.add_finding (state.py:415-454): positional signature
(execution_id, severity, category, title, description, evidence,
suggested_fix); the INSERT is subject to the severity and category CHECK
constraints. Description, evidence and suggested_fix are dropped from the
row model. -/
def addFinding (eid severity category title : String) : Orc FindingRow := do
  if severity ∈ severityCheckValues ∧ category ∈ categoryCheckValues then do
    let db ← get
    let row : FindingRow :=
      { finding_id := "finding_" ++ toString db.findings.length
        execution_id := eid
        severity := severity
        category := category
        title := title }
    modify fun db => { db with findings := db.findings ++ [row] }
    pure row
  else
    throw (PyErr.databaseError "CHECK constraint failed on findings")

/-- StateManager.register_artifact (state.py:536-574): the INSERT is subject
to the artifacts.artifact_type CHECK constraint (schema.py:91). -/
def registerArtifact (rid artifactType : String) : Orc ArtifactRow := do
  if artifactType ∈ artifactTypeCheckValues then do
    let db ← get
    let row : ArtifactRow :=
      { artifact_id := "artifact_" ++ toString db.artifacts.length
        run_id := rid
        artifact_type := artifactType }
    modify fun db => { db with artifacts := db.artifacts ++ [row] }
    pure row
  else
    throw (PyErr.databaseError "CHECK constraint failed on artifacts.artifact_type")

/-- StateManager.create_intervention (state.py:626-653): INSERT an
unresolved intervention, subject to the reason CHECK constraint. -/
def createIntervention (pid reason : String) : Orc InterventionRow := do
  if reason ∈ interventionReasonCheckValues then do
    let db ← get
    let row : InterventionRow :=
      { intervention_id := "intervention_" ++ toString db.interventions.length
        phase_id := pid
        reason := reason
        action_taken := none
        notes := none
        resolved_at_set := false }
    modify fun db => { db with interventions := db.interventions ++ [row] }
    pure row
  else
    throw (PyErr.databaseError "CHECK constraint failed on manual_interventions.reason")

/-- StateManager.resolve_intervention (state.py:655-674): UPDATE
manual_interventions SET action_taken = ?, notes = ?, resolved_at = ? — the
UPDATE is subject to the action_taken CHECK constraint (schema.py:106),
which admits only resume, skip, modify_spec and abort. -/
def resolveIntervention (iid action : String) (notes : Option String) : Orc Unit := do
  if action ∈ actionTakenCheckValues then
    modify fun db =>
      { db with interventions := db.interventions.map fun i =>
          if i.intervention_id = iid then
            { i with action_taken := some action, notes := notes, resolved_at_set := true }
          else i }
  else
    throw (PyErr.databaseError "CHECK constraint failed on manual_interventions.action_taken")

/-- StateManager.get_pending_interventions (state.py:676-690): unresolved
interventions whose owning phase belongs to the run, in creation order. -/
def getPendingInterventions (rid : String) : Orc (List InterventionRow) := do
  let db ← get
  pure (db.interventions.filter fun i =>
    !i.resolved_at_set &&
      (match lookupPhase db.phases i.phase_id with
       | some p => p.run_id == rid
       | none => false))

/-! ### PhaseVerifier threshold gate (src/orchestrator/verifier.py) -/

/-- Counts of findings by severity, as computed in
PhaseVerifier.verify_phase_execution (verifier.py:196-200). -/
structure FindingsSummary where
  major : Nat
  medium : Nat
  minor : Nat
deriving DecidableEq, Repr

/-- A findings_thresholds dictionary: each severity key may be present or
absent, mirroring dict.get with a default. -/
structure FindingsThresholds where
  major : Option Nat
  medium : Option Nat
  minor : Option Nat
deriving DecidableEq, Repr

/-- The default findings_thresholds dictionary installed by
VerificationConfig.__init__ when the key is not configured
(verifier.py:52-56): major 0, medium 3, minor 10. -/
def defaultFindingsThresholds : FindingsThresholds := ⟨some 0, some 3, some 10⟩

/-- VerificationConfig.__init__ (verifier.py:52-56): config_dict.get of the
findings_thresholds key, defaulting to the 0 / 3 / 10 dictionary. -/
def verificationConfigThresholds (configured : Option FindingsThresholds) : FindingsThresholds :=
  configured.getD defaultFindingsThresholds

/-- PhaseVerifier._check_findings_thresholds (verifier.py:611-627): fail when
any severity count strictly exceeds its threshold, each threshold read with
dict.get and its per-severity default (0, 3, 10); otherwise pass. -/
def checkFindingsThresholds (summary : FindingsSummary) (thresholds : FindingsThresholds) : Bool :=
  if summary.major > thresholds.major.getD 0 then false
  else if summary.medium > thresholds.medium.getD 3 then false
  else if summary.minor > thresholds.minor.getD 10 then false
  else true

/-! ### CopilotCLIInterface.execute_spec JSON handling
(src/agents/copilot_interface.py:385-483) -/

/-- One entry of the patches array of the JSON the CLI returns: a target file
and a unified diff. -/
structure PatchItem where
  file : String
  diff : String
deriving DecidableEq, Repr

/-- The parsed JSON output of a CLI invocation that exited with code 0, as
read at copilot_interface.py:385-431. -/
structure CopilotJsonOutput where
  patches : List PatchItem
  changes_summary : Option String
deriving DecidableEq, Repr

/-- The fields of CopilotExecutionResult that the JSON-handling tail of
execute_spec determines. -/
structure ExecSpecParsed where
  success : Bool
  error_message : Option String
  error_type : Option String
  patches : List PatchItem
deriving DecidableEq, Repr

/-- The JSON-handling tail of CopilotCLIInterface.execute_spec
(copilot_interface.py:385-483), entered after the process exited with code
0. none models a falsy json_output (parse failure or an empty JSON object);
a present output with an empty patches array is converted to a failure
result carrying the no-actionable-changes error (lines 433-450); otherwise
the successful result is returned. -/
def executeSpecResultFromJson (jsonOutput : Option CopilotJsonOutput) : ExecSpecParsed :=
  match jsonOutput with
  | some j =>
      if j.patches.isEmpty then
        { success := false
          error_message := some "No actionable changes generated - patches field is empty"
          error_type := some "EXECUTION_ERROR"
          patches := [] }
      else
        { success := true, error_message := none, error_type := none, patches := j.patches }
  | none =>
      { success := false
        error_message := some "Copilot did not return JSON output as required"
        error_type := some "PARSE_ERROR"
        patches := [] }

/-! ### PhaseExecutor (src/orchestrator/executor.py) -/

/-- Python attribute access phase.id on a PhaseState, as written at
executor.py:138, 740, 794, 895, 1108, 1115-1116, 1193, 1195, 1338 and 1344.
PhaseState (models.py:66-125) declares the field phase_id and no field id,
and pydantic v2 models raise AttributeError for undeclared attributes, so
the access raises. -/
def attrIdOfPhase (_p : PhaseRow) : Orc String :=
  throw (PyErr.attributeError "PhaseState object has no attribute id")

/-- Environment-determined outcome of applying one patch of a change-set
(per index, matching the enumerate loop at executor.py:678). -/
structure PatchOutcome where
  valid_format : Bool
  patch_file_exists : Bool
  applies : Bool
deriving DecidableEq, Repr

/-- Number of patches of the change-set that end up in failed_patches in the
loop at executor.py:678-708: invalid format, missing patch file, or a git
apply failure (the with-reject retry only touches the working tree). -/
def failedPatchCount (idx : Nat) (patches : List PatchItem) (outcome : Nat → PatchOutcome) : Nat :=
  match patches with
  | [] => 0
  | _ :: rest =>
      (if (outcome idx).valid_format && (outcome idx).patch_file_exists && (outcome idx).applies
       then 0 else 1) + failedPatchCount (idx + 1) rest outcome

/-- The finding-recording call at executor.py:739-747, reached when
failed_patches is non-empty. It invokes StateManager.add_finding with
keyword arguments phase_id and pass_number; add_finding (state.py:415-424)
has the positional signature (execution_id, severity, category, title,
description, evidence, suggested_fix), so the keyword arguments do not
exist and the required execution_id and category are missing: the call
raises TypeError. (Evaluating phase.id in the argument list already raises
AttributeError, since PhaseState has no id field.) Either way the call
raises before any finding row is inserted. -/
def addFindingCallInApplyPatches (_phase : PhaseRow) (_passNumber : Nat) : Orc FindingRow :=
  throw (PyErr.typeError "add_finding got an unexpected keyword argument phase_id")

/-- PhaseExecutor._apply_copilot_patches (executor.py:646-755). The guards
at lines 661-672 (no git repo, empty patches list, missing patches
directory) return False before the try block. Inside the try block the
per-file loop partitions the change-set into applied and failed; when any
patch failed, the failed-patches log is written to the file system and the
add_finding call raises, which the except handler at line 753 turns into
return False. When no patch failed the function returns True. -/
def applyCopilotPatches (gitRepoOk patchesDirExists : Bool) (phase : PhaseRow)
    (patches : List PatchItem) (outcome : Nat → PatchOutcome) (passNumber : Nat) : Orc Bool := do
  if !gitRepoOk then pure false
  else if patches.isEmpty then pure false
  else if !patchesDirExists then pure false
  else
    tryCatch
      (do
        if failedPatchCount 0 patches outcome = 0 then
          pure true
        else do
          let _ ← addFindingCallInApplyPatches phase passNumber
          pure false)
      (fun _ => pure false)

/-- One verification finding as produced by the enabled checks, before
persistence. -/
structure VerificationFinding where
  severity : String
  category : String
  title : String
deriving DecidableEq, Repr

/-- VerificationResult (verification_models.py) restricted to the fields the
claims are about; execution_time is dropped. -/
structure VerificationResult where
  passed : Bool
  findings : List VerificationFinding
  findings_summary : FindingsSummary
  failed_checklist_items : List String
  checks_run : List String
deriving DecidableEq, Repr

/-- The result _run_verification returns when the phase has no execution
record (executor.py:1237-1244): passed, no findings, all-zero summary, no
failed checklist items, no checks run. -/
def vacuousVerificationResult : VerificationResult :=
  { passed := true
    findings := []
    findings_summary := ⟨0, 0, 0⟩
    failed_checklist_items := []
    checks_run := [] }

/-- max(executions, key=started_at) if executions else None
(executor.py:1232): the first row attaining the maximal started_at, as
Python max returns, or none for an empty list. -/
def latestExecution : List ExecutionRow → Option ExecutionRow
  | [] => none
  | e :: es => some (es.foldl (fun best x => if x.started_at > best.started_at then x else best) e)

/-- Continuation of _run_verification after the latest-execution lookup.
With no execution the vacuous passing result is returned immediately
(executor.py:1234-1244). Otherwise verify_phase_execution runs the enabled
checks (their outcome is the verdict parameter) and persists each finding,
each insert guarded by its own try/except (verifier.py:205-217); the
executor then registers the findings reports as artifacts of types
findings_report_md and findings_report_json (executor.py:1273-1295), types
the artifacts CHECK constraint does not admit. -/
def runVerificationAfterLookup (phase : PhaseRow) (verdict : VerificationResult) :
    Option ExecutionRow → Orc VerificationResult
  | none => pure vacuousVerificationResult
  | some e => do
      verdict.findings.forM fun f =>
        tryCatch
          (do
            let _ ← addFinding e.execution_id f.severity f.category f.title
            pure ())
          (fun _ => pure ())
      let _ ← registerArtifact phase.run_id "findings_report_md"
      let _ ← registerArtifact phase.run_id "findings_report_json"
      pure verdict

/-- PhaseExecutor._run_verification (executor.py:1200-1302): look up the
executions of the phase, take the latest by started_at, and continue as
runVerificationAfterLookup. -/
def runVerificationForPhase (phase : PhaseRow) (verdict : VerificationResult) :
    Orc VerificationResult := do
  let db ← get
  runVerificationAfterLookup phase verdict (latestExecution (executionsForPhase db phase.phase_id))

/-- PhaseExecutor._handle_verification_failure (executor.py:1304-1367):
generate the feedback spec (a file-system write) and register it as an
artifact of type feedback_spec (executor.py:1358-1364), a type the
artifacts CHECK constraint does not admit; on success return True. -/
def handleVerificationFailure (phase : PhaseRow) : Orc Bool := do
  let _ ← registerArtifact phase.run_id "feedback_spec"
  pure true

/-- PhaseExecutor.handle_execution_error (executor.py:1134-1168): look up
the phase (returning silently when missing), mark it failed, and write the
error log to the file system. -/
def handleExecutionError (pid : String) : Orc Unit := do
  match ← getPhase pid with
  | none => pure ()
  | some _ => updatePhaseStatus pid "failed"

/-- PhaseExecutor.handle_manual_intervention (executor.py:969-996): create a
ManualIntervention with reason max_retries_exceeded, then set the phase
status to paused and the run status to paused. The phase update is subject
to the phases.status CHECK constraint, which does not admit paused. -/
def handleManualIntervention (pid : String) : Orc String := do
  match ← getPhase pid with
  | none => throw (PyErr.valueError "Phase not found")
  | some phase => do
      let intervention ← createIntervention pid "max_retries_exceeded"
      updatePhaseStatus pid "paused"
      updateRunStatus phase.run_id "paused"
      pure intervention.intervention_id

/-- The fields of CopilotExecutionResult that the retry loop reads. -/
structure CopilotCallResult where
  success : Bool
  error_message : Option String
deriving DecidableEq, Repr

/-- What CopilotCLIInterface.execute_spec produces for one pass: a returned
result, or a raised CopilotCLIError. In every returned-result case
execute_spec has already written copilot_prompt.md into the artifact
directory (copilot_interface.py:275-276). -/
inductive ExecSpecOutcome where
  | returns (success : Bool) (output_path : Option String) (patches : List PatchItem)
      (error_message : Option String)
  | cliError (msg : String)
deriving DecidableEq, Repr

/-- PhaseExecutor.execute_with_copilot (executor.py:433-580), in direct
mode. With the interface disabled it returns a failure result before any
store write (lines 447-453). Otherwise it creates the execution record,
invokes execute_spec, marks the execution completed or failed, registers
the copilot_output artifact when an output path exists, and then registers
the copilot_prompt artifact (lines 538-546; the prompt file always exists);
copilot_prompt is not admitted by the artifacts CHECK constraint, so that
insert raises DatabaseError, which only the CopilotCLIError handler at line
564 would not catch — the error propagates. On a raised CopilotCLIError the
handler marks the execution failed and returns a failure result. The
patch-application step (lines 548-556) follows the artifact registrations. -/
def executeWithCopilot (copilotEnabled : Bool) (phase : PhaseRow) (passNumber : Nat)
    (outcome : ExecSpecOutcome) (patchOutcome : Nat → PatchOutcome) : Orc CopilotCallResult := do
  if !copilotEnabled then
    pure { success := false, error_message := some "Copilot CLI integration is disabled" }
  else do
    let execution ← createExecution phase.phase_id passNumber
    match outcome with
    | ExecSpecOutcome.cliError msg => do
        failExecution execution.execution_id msg
        pure { success := false, error_message := some msg }
    | ExecSpecOutcome.returns success output_path patches error_message => do
        if success then completeExecution execution.execution_id
        else failExecution execution.execution_id (error_message.getD "Unknown error")
        match output_path with
        | some _ => do
            let _ ← registerArtifact phase.run_id "copilot_output"
            pure ()
        | none => pure ()
        let _ ← registerArtifact phase.run_id "copilot_prompt"
        if success && !patches.isEmpty then do
          let ok ← applyCopilotPatches true true phase patches (patchOutcome) passNumber
          if !ok then
            pure { success := false, error_message := some "Failed to apply one or more patches" }
          else
            pure { success := success, error_message := error_message }
        else
          pure { success := success, error_message := error_message }

/-- The external collaborators of one phase execution: whether the Copilot
interface is enabled, and, per pass number, the execute_spec outcome, the
verification verdict of the enabled checks, and the per-index patch-apply
outcomes. -/
structure ExternalEnv where
  copilotEnabled : Bool
  execSpec : Nat → ExecSpecOutcome
  verdict : Nat → VerificationResult
  patchOutcome : Nat → Nat → PatchOutcome

/-- Outcome of the body of one iteration of the retry loop. -/
inductive IterOut where
  | continueLoop
  | phaseCompleted
deriving DecidableEq, Repr

/-- The body of one pass of the retry loop (executor.py:199-286), direct
mode: generate the phase spec (registering the spec artifact,
executor.py:422-428), invoke Copilot; on a returned failure increment the
retry count and either continue (more passes remain) or raise
(executor.py:214-228); on success run verification; on a failed
verification with passes remaining generate the feedback spec, increment
the retry count and continue, otherwise raise (executor.py:248-273); on a
passed verification mark the phase completed and finish
(executor.py:278-286). -/
def passBody (env : ExternalEnv) (phase : PhaseRow) (passNumber maxRetries : Nat) : Orc IterOut := do
  let _ ← registerArtifact phase.run_id "spec"
  let result ← executeWithCopilot env.copilotEnabled phase passNumber (env.execSpec passNumber)
    (env.patchOutcome passNumber)
  if !result.success then do
    let _ ← incrementPhaseRetry phase.phase_id
    if passNumber < maxRetries then
      pure IterOut.continueLoop
    else
      throw (PyErr.genericError "Copilot execution failed")
  else do
    let verification ← runVerificationForPhase phase (env.verdict passNumber)
    if !verification.passed then
      if passNumber < maxRetries then do
        let shouldRetry ← handleVerificationFailure phase
        if shouldRetry then do
          let _ ← incrementPhaseRetry phase.phase_id
          pure IterOut.continueLoop
        else
          throw (PyErr.genericError "Verification failed after max attempts")
      else
        throw (PyErr.genericError "Verification failed after max attempts")
    else do
      updatePhaseStatus phase.phase_id "completed"
      pure IterOut.phaseCompleted

/-- How one iteration of the retry loop ends at the loop level. -/
inductive LoopStep where
  | next
  | done
  | broke
deriving DecidableEq, Repr

/-- One iteration of the retry loop together with its exception handler
(executor.py:288-300): any exception raised inside the pass increments the
retry count once more; on the final pass the handler additionally marks the
phase failed via handle_execution_error and breaks out of the loop. -/
def passIteration (env : ExternalEnv) (phase : PhaseRow) (passNumber maxRetries : Nat) :
    Orc LoopStep :=
  tryCatch
    (do
      match ← passBody env phase passNumber maxRetries with
      | IterOut.continueLoop => pure LoopStep.next
      | IterOut.phaseCompleted => pure LoopStep.done)
    (fun _ => do
      let _ ← incrementPhaseRetry phase.phase_id
      if passNumber = maxRetries then do
        handleExecutionError phase.phase_id
        pure LoopStep.broke
      else
        pure LoopStep.next)

/-- The retry loop for pass_number in range(1, max_retries + 1)
(executor.py:190): fuel counts the remaining passes. Returns true exactly
when some pass completed the phase; exhausting the range or breaking out
falls through to escalation. -/
def passLoop (env : ExternalEnv) (phase : PhaseRow) (maxRetries : Nat) :
    Nat → Nat → Orc Bool
  | 0, _ => pure false
  | fuel + 1, passNumber => do
      match ← passIteration env phase passNumber maxRetries with
      | LoopStep.next => passLoop env phase maxRetries fuel (passNumber + 1)
      | LoopStep.done => pure true
      | LoopStep.broke => pure false

/-- The body of PhaseExecutor.execute_single_phase (executor.py:171-311),
direct mode: mark the phase in progress, run the retry loop, and on
fall-through escalate via handle_manual_intervention (branch cleanup is
skipped since create_phase_branch returns the empty string in direct
mode). -/
def executeSinglePhaseCore (env : ExternalEnv) (pid : String) (maxRetries : Nat) : Orc Bool := do
  match ← getPhase pid with
  | none => pure false
  | some phase => do
      updatePhaseStatus pid "in_progress"
      let completed ← passLoop env phase maxRetries maxRetries 1
      if completed then
        pure true
      else do
        let _ ← handleManualIntervention pid
        pure false

/-- PhaseExecutor.execute_single_phase (executor.py:161-316): the body under
its outermost exception handler (executor.py:313-316), which routes any
escaped exception through handle_execution_error and returns False. -/
def executeSinglePhase (env : ExternalEnv) (pid : String) (maxRetries : Nat) : Orc Bool :=
  tryCatch (executeSinglePhaseCore env pid maxRetries)
    (fun _ => do
      handleExecutionError pid
      pure false)

/-- PhaseExecutor.generate_execution_summary (executor.py:1088-1132)
restricted to its store interaction: it dereferences phase.id for every
phase of the run (executor.py:1108, 1115-1116), which raises AttributeError
as soon as the run has a phase. -/
def generateExecutionSummary (rid : String) : Orc Unit := do
  let phases ← getPhasesForRun rid
  phases.forM fun p => do
    let _ ← attrIdOfPhase p
    pure ()

/-- The per-phase loop of execute_phases (executor.py:132-148): skipped
phases are passed over; each remaining phase is executed through
execute_single_phase(phase.id) — the phase.id access itself raises — and on
a returned failure the run halts, left paused when an escalation paused it
and marked failed otherwise. Returns true when every phase succeeded. -/
def phasesLoop (env : ExternalEnv) (maxRetries : Nat) (rid : String) :
    List PhaseRow → Orc Bool
  | [] => pure true
  | phase :: rest => do
      if phase.status = "skipped" then
        phasesLoop env maxRetries rid rest
      else do
        let pid ← attrIdOfPhase phase
        let success ← executeSinglePhase env pid maxRetries
        if !success then do
          match ← getRun rid with
          | some run =>
              if run.status = "paused" then pure false
              else do
                updateRunStatus rid "failed"
                pure false
          | none => do
              updateRunStatus rid "failed"
              pure false
        else
          phasesLoop env maxRetries rid rest

/-- PhaseExecutor.execute_phases (executor.py:103-159): validate the Copilot
environment when enabled, load the phases (returning when there are none),
mark the run executing, drive the per-phase loop, and on success mark the
run completed and emit the summary. The whole body sits under the handler
at executor.py:156-159, which marks the run failed and re-raises. -/
def executePhases (env : ExternalEnv) (envValidationOk : Bool) (rid : String)
    (maxRetries : Nat) : Orc Unit :=
  tryCatch
    (do
      if env.copilotEnabled && !envValidationOk then do
        updateRunStatus rid "failed"
        throw (PyErr.genericError "Copilot validation failed")
      else do
        let phases ← getPhasesForRun rid
        if phases.isEmpty then pure ()
        else do
          updateRunStatus rid "executing"
          let allOk ← phasesLoop env maxRetries rid (sortPhasesByNumber phases)
          if allOk then do
            updateRunStatus rid "completed"
            generateExecutionSummary rid
          else pure ())
    (fun e => do
      updateRunStatus rid "failed"
      throw e)

/-- The scan of execute_phases recovery (executor.py:1190-1196): the first
phase, in phase_number order, whose status is in_progress or paused; the
logging f-string and the return statement both dereference phase.id. -/
def findRecoveryPoint : List PhaseRow → Orc (Option String)
  | [] => pure none
  | p :: rest =>
      if p.status = "in_progress" ∨ p.status = "paused" then do
        let pid ← attrIdOfPhase p
        pure (some pid)
      else
        findRecoveryPoint rest

/-- PhaseExecutor.recover_execution (executor.py:1170-1198): only runs in
status executing or paused are recoverable; the resume point is the first
phase, by phase_number, still in_progress or paused. -/
def recoverExecution (rid : String) : Orc (Option String) := do
  match ← getRun rid with
  | none => pure none
  | some run =>
      if run.status = "executing" ∨ run.status = "paused" then do
        let phases ← getPhasesForRun rid
        findRecoveryPoint (sortPhasesByNumber phases)
      else
        pure none

/-- PhaseExecutor.resume_phase (executor.py:998-1060): look up the phase and
its open intervention (returning silently when there is none), then apply
the action: resume and modify_spec set the phase in_progress and the run
executing, skip sets the phase skipped, abort sets the phase failed and the
run aborted; each branch then resolves the intervention, passing the
past-tense action value written at executor.py:1029, 1037, 1047 and 1056
(resumed, skipped, modified_spec, aborted). -/
def resumePhase (pid action : String) (modifiedSpecPathValid : Bool) : Orc Unit := do
  match ← getPhase pid with
  | none => throw (PyErr.valueError "Phase not found")
  | some phase => do
      let interventions ← getPendingInterventions phase.run_id
      match interventions.find? (fun i => i.phase_id == pid) with
      | none => pure ()
      | some active =>
          if action = "resume" then do
            updatePhaseStatus pid "in_progress"
            updateRunStatus phase.run_id "executing"
            resolveIntervention active.intervention_id "resumed" none
          else if action = "skip" then do
            updatePhaseStatus pid "skipped"
            resolveIntervention active.intervention_id "skipped" none
          else if action = "modify_spec" then
            if !modifiedSpecPathValid then
              throw (PyErr.valueError "Valid modified_spec_path required for modify_spec action")
            else do
              updatePhaseStatus pid "in_progress"
              updateRunStatus phase.run_id "executing"
              resolveIntervention active.intervention_id "modified_spec" none
          else if action = "abort" then do
            updatePhaseStatus pid "failed"
            updateRunStatus phase.run_id "aborted"
            resolveIntervention active.intervention_id "aborted" none
          else
            throw (PyErr.valueError "Invalid action")

/-! ### Derived predicates for the counter invariant -/

/-- The invariant claimed for the completed-phases counter: every run row
carries exactly the number of its phases whose status is completed. -/
@[reducible] def runCountersMatch (db : DB) : Prop :=
  ∀ r ∈ db.runs, r.completed_phases = completedCount db.phases r.run_id

/-! ### Concrete scenario inputs -/

/-- A fresh single-phase run: one pending phase with max_retries 2. -/
def escalationPhase : PhaseRow :=
  { phase_id := "p1", run_id := "run1", phase_number := 1, title := "phase one"
    status := "pending", retry_count := 0, max_retries := 2 }

/-- The run row of the scenario store, already in status executing. -/
def escalationRun : RunRow :=
  { run_id := "run1", status := "executing", total_phases := 1, completed_phases := 0
    current_phase_id := none, error_message := none }

/-- Scenario store: one executing run with one pending phase and nothing
else. -/
def escalationDB : DB :=
  { runs := [escalationRun], phases := [escalationPhase], executions := [], findings := []
    artifacts := [], interventions := [], phase_status_trace := [] }

/-- External environment in which the Copilot CLI is enabled and every
invocation returns a failure result (a nonzero exit code), with no output
path and no patches. -/
def copilotFailureEnv : ExternalEnv :=
  { copilotEnabled := true
    execSpec := fun _ =>
      ExecSpecOutcome.returns false none [] (some "Copilot CLI failed with exit code 1")
    verdict := fun _ => vacuousVerificationResult
    patchOutcome := fun _ _ => ⟨true, true, true⟩ }

/-- External environment in which the Copilot integration is disabled, so
execute_with_copilot returns its failure result before any store write. -/
def copilotDisabledEnv : ExternalEnv :=
  { copilotEnabled := false
    execSpec := fun _ => ExecSpecOutcome.returns false none [] none
    verdict := fun _ => vacuousVerificationResult
    patchOutcome := fun _ _ => ⟨true, true, true⟩ }

/-- Outcome of the escalation scenario: max_retries 2 and two consecutive
Copilot failures on the same phase. -/
def escalationOutcome : Except PyErr Bool × DB :=
  runOrc (executeSinglePhase copilotFailureEnv "p1" 2) escalationDB

/-- Outcome of the same two-failure scenario with the Copilot integration
disabled, the configuration under which execute_with_copilot returns its
failure result and the loop reaches the increment at executor.py:218. -/
def retryOutcome : Except PyErr Bool × DB :=
  runOrc (executeSinglePhase copilotDisabledEnv "p1" 2) escalationDB

/-- Scenario store for the orchestrator loop: the run still in planning with
one pending phase. -/
def planningRunDB : DB :=
  { escalationDB with runs := [{ escalationRun with status := "planning" }] }

/-- Outcome of execute_phases on a run with a single pending phase. -/
def executePhasesOutcome : Except PyErr Unit × DB :=
  runOrc (executePhases copilotDisabledEnv true "run1" 2) planningRunDB

/-- Recovery scenario store: an executing run with phase 1 completed and
phase 2 in progress. -/
def recoveryDB : DB :=
  { escalationDB with
    phases :=
      [{ escalationPhase with status := "completed" },
       { escalationPhase with phase_id := "p2", phase_number := 2, status := "in_progress" }] }

/-- Outcome of recover_execution on the recovery scenario. -/
def recoveryOutcome : Except PyErr (Option String) × DB :=
  runOrc (recoverExecution "run1") recoveryDB

/-- A one-element change-set whose single patch fails to apply. -/
def failingPatch : PatchItem := { file := "module_a.py", diff := "patch text" }

/-- Outcome of _apply_copilot_patches on a change-set whose only patch fails
to apply (valid format, patch file present, git apply fails). -/
def applyPatchesOutcome : Except PyErr Bool × DB :=
  runOrc (applyCopilotPatches true true escalationPhase [failingPatch]
    (fun _ => ⟨true, true, false⟩) 1) escalationDB

/-- Resume scenario store: a paused run whose single phase is paused with
one open ManualIntervention. -/
def resumeDB : DB :=
  { escalationDB with
    runs := [{ escalationRun with status := "paused" }]
    phases := [{ escalationPhase with status := "paused" }]
    interventions :=
      [{ intervention_id := "int1", phase_id := "p1", reason := "max_retries_exceeded",
         action_taken := none, notes := none, resolved_at_set := false }] }

/-- Outcome of resume_phase with action resume on the resume scenario. -/
def resumeOutcome : Except PyErr Unit × DB :=
  runOrc (resumePhase "p1" "resume" true) resumeDB

/-- Outcome of two consecutive set-to-completed mutations of the same
phase. -/
def doubleCompleteOutcome : Except PyErr Unit × DB :=
  runOrc (do
    updatePhaseStatus "p1" "completed"
    updatePhaseStatus "p1" "completed") escalationDB

/-- A parsed CLI JSON output that claims success (it is a truthy JSON object
with a summary) but carries an empty change-set. -/
def claimedSuccessJson : CopilotJsonOutput :=
  { patches := [], changes_summary := some "implemented the phase" }

/-! ## Theorems -/

/-! ### Reduction lemmas for the state-exception monad -/

theorem runOrc_pure {α} (a : α) (db : DB) : runOrc (pure a) db = (Except.ok a, db) := rfl

theorem runOrc_throw {α} (e : PyErr) (db : DB) :
    runOrc (throw e : Orc α) db = (Except.error e, db) := rfl

theorem runOrc_modify (g : DB → DB) (db : DB) :
    runOrc (modify g) db = (Except.ok (), g db) := rfl

theorem runOrc_get_bind {α} (f : DB → Orc α) (db : DB) :
    runOrc ((get : Orc DB) >>= f) db = runOrc (f db) db := rfl

/-! ### Structural lemmas about the store operations -/

theorem lookupPhase_eq_none_iff (l : List PhaseRow) (pid : String) :
    lookupPhase l pid = none ↔ ∀ p ∈ l, p.phase_id ≠ pid := by
  induction l with
  | nil => simp [lookupPhase]
  | cons p ps ih =>
      by_cases hp : p.phase_id = pid <;> simp [lookupPhase, hp, ih]

theorem setStatusInPhases_not_present (l : List PhaseRow) (pid s : String)
    (h : ∀ p ∈ l, p.phase_id ≠ pid) : setStatusInPhases l pid s = l := by
  induction l with
  | nil => rfl
  | cons p ps ih =>
      have hp : p.phase_id ≠ pid := h p (List.mem_cons_self p ps)
      have hps := ih fun q hq => h q (List.mem_cons_of_mem p hq)
      simp only [setStatusInPhases, List.map_cons] at hps ⊢
      rw [if_neg hp, hps]

theorem completedCount_setStatus (l : List PhaseRow) (pid s rid : String)
    (hNodup : (l.map PhaseRow.phase_id).Nodup)
    (hTerm : ∀ p ∈ l, p.phase_id = pid → p.status ≠ "completed") :
    completedCount (setStatusInPhases l pid s) rid =
      completedCount l rid +
        (match lookupPhase l pid with
         | some p0 => if s = "completed" ∧ p0.run_id = rid then 1 else 0
         | none => 0) := by
  induction l with
  | nil => rfl
  | cons p ps ih =>
      simp only [List.map_cons, List.nodup_cons] at hNodup
      obtain ⟨hhead, hNodupTail⟩ := hNodup
      by_cases hp : p.phase_id = pid
      · have hnotin : ∀ q ∈ ps, q.phase_id ≠ pid := by
          intro q hq hqe
          exact hhead (by rw [hp, ← hqe]; exact List.mem_map_of_mem PhaseRow.phase_id hq)
        have hset := setStatusInPhases_not_present ps pid s hnotin
        have hstat : p.status ≠ "completed" := hTerm p (List.mem_cons_self p ps) hp
        simp only [setStatusInPhases, List.map_cons, if_pos hp, lookupPhase]
        simp only [setStatusInPhases] at hset
        rw [hset]
        simp only [completedCount]
        by_cases hrun : p.run_id = rid <;> by_cases hcs : s = "completed" <;>
          (simp [hrun, hcs, hstat]; try omega)
      · have hTail := ih hNodupTail fun q hq => hTerm q (List.mem_cons_of_mem p hq)
        simp only [setStatusInPhases, List.map_cons, if_neg hp, lookupPhase]
        simp only [setStatusInPhases] at hTail
        simp only [completedCount]
        rw [hTail]
        exact (Nat.add_assoc _ _ _).symm

theorem applyPhaseStatusWrite_parts (db : DB) (pid s : String) :
    (applyPhaseStatusWrite db pid s).phases = setStatusInPhases db.phases pid s ∧
    (applyPhaseStatusWrite db pid s).runs =
      (match lookupPhase db.phases pid with
       | some p0 =>
           if s = "in_progress" then
             db.runs.map fun r =>
               if r.run_id = p0.run_id then { r with current_phase_id := some pid } else r
           else if s = "completed" then
             db.runs.map fun r =>
               if r.run_id = p0.run_id then { r with completed_phases := r.completed_phases + 1 }
               else r
           else db.runs
       | none => db.runs) := by
  unfold applyPhaseStatusWrite
  cases lookupPhase db.phases pid <;>
    by_cases h1 : s = "in_progress" <;> by_cases h2 : s = "completed" <;>
      simp [h1, h2]

theorem runOrc_updatePhaseStatus (pid s : String) (db : DB) :
    runOrc (updatePhaseStatus pid s) db =
      if s ∈ phaseStatusCheckValues then (Except.ok (), applyPhaseStatusWrite db pid s)
      else (Except.error (PyErr.databaseError "CHECK constraint failed on phases.status"), db) := by
  unfold updatePhaseStatus
  split <;> rfl

/-! ### Claim theorems -/

/-- C1. For every findings summary and every configured threshold triple, the
pass/fail decision of PhaseVerifier._check_findings_thresholds equals the
conjunction of the three non-strict comparisons major at most t.major,
medium at most t.medium, minor at most t.minor (boundary equality passes),
where an absent findings_thresholds configuration yields the default
thresholds 0 / 3 / 10; the decision is a function of exactly these two
inputs. -/
theorem checkFindingsThresholds_decision_rule (s : FindingsSummary) (t : FindingsThresholds) :
    (checkFindingsThresholds s t = true ↔
      (s.major ≤ t.major.getD 0 ∧ s.medium ≤ t.medium.getD 3 ∧ s.minor ≤ t.minor.getD 10)) ∧
    verificationConfigThresholds none = defaultFindingsThresholds ∧
    (checkFindingsThresholds s (verificationConfigThresholds none) = true ↔
      (s.major ≤ 0 ∧ s.medium ≤ 3 ∧ s.minor ≤ 10)) := by
  refine ⟨?_, rfl, ?_⟩
  · unfold checkFindingsThresholds
    split_ifs <;> simp_all
  · unfold checkFindingsThresholds verificationConfigThresholds defaultFindingsThresholds
    split_ifs <;> simp_all <;> omega

/-- C2. Escalation scenario, max_retries 2, two consecutive Generation
Service failures on the same phase: the code creates exactly one
ManualIntervention with reason max_retries_exceeded, but the phase ends in
status failed (the UPDATE to paused violates the phases.status CHECK
constraint, which omits paused) and the run status is never set to paused
(it stays executing); the intervention is left unresolved. This evaluates
the source at the failing input of the claim. -/
theorem escalation_statuses_not_paused :
    escalationOutcome.1 = Except.ok false ∧
    (escalationOutcome.2.interventions.map fun i => (i.reason, i.action_taken, i.resolved_at_set))
      = [("max_retries_exceeded", none, false)] ∧
    (escalationOutcome.2.phases.map PhaseRow.status) = ["failed"] ∧
    (escalationOutcome.2.runs.map RunRow.status) = ["executing"] :=
  ⟨rfl, rfl, rfl, rfl⟩

/-- C3. With the Copilot integration disabled (execute_with_copilot returns
a failure result, reaching the increment at executor.py:218) and
max_retries 2, the final failed pass increments retry_count twice — once at
executor.py:218 and once in the handler at executor.py:295 — so the phase
reaches the terminal status failed with retry_count 3, strictly greater
than max_retries 2: the audit trace of status writes records a failed write
at retry_count 3. This evaluates the source at the failing input of the
claim. -/
theorem retry_count_exceeds_max_at_terminal_status :
    retryOutcome.1 = Except.ok false ∧
    retryOutcome.2.phase_status_trace =
      [⟨"p1", "in_progress", 0⟩, ⟨"p1", "failed", 3⟩, ⟨"p1", "failed", 3⟩] ∧
    (retryOutcome.2.phases.map fun p => (p.status, p.retry_count, p.max_retries))
      = [("failed", 3, 2)] ∧
    3 > 2 :=
  ⟨rfl, rfl, rfl, by omega⟩

/-- C4. execute_phases on a run with one pending phase: the loop evaluates
phase.id (executor.py:138), an attribute PhaseState does not have, so an
AttributeError is raised before the phase is executed; the handler at
executor.py:156-159 marks the run failed and re-raises. The phase is never
started (it stays pending), and the completed path of the claim is
unreachable. This evaluates the source at the failing input of the claim. -/
theorem executePhases_raises_and_marks_run_failed :
    executePhasesOutcome.1 =
      Except.error (PyErr.attributeError "PhaseState object has no attribute id") ∧
    (executePhasesOutcome.2.runs.map RunRow.status) = ["failed"] ∧
    (executePhasesOutcome.2.phases.map PhaseRow.status) = ["pending"] :=
  ⟨rfl, rfl, rfl⟩

/-- C5. recover_execution on an executing run with phase 1 completed and
phase 2 in_progress: the scan finds phase 2 but then evaluates phase.id
(executor.py:1193 and 1195), an attribute PhaseState does not have, so an
AttributeError is raised instead of returning the in_progress phase as the
resume point; the store is left unchanged. This evaluates the source at the
failing input of the claim. -/
theorem recoverExecution_raises_attribute_error :
    recoveryOutcome =
      (Except.error (PyErr.attributeError "PhaseState object has no attribute id"), recoveryDB) :=
  rfl

/-- C6. _apply_copilot_patches on a change-set whose only patch fails to
apply: the apply is reported as failed (the function returns False), but no
major Finding is recorded — the add_finding call at executor.py:739 raises
(wrong keyword arguments for StateManager.add_finding, and phase.id does
not exist), the handler at executor.py:753 swallows the error, and the
store is left completely unchanged (in particular findings stays empty).
This evaluates the source at the failing input of the claim. -/
theorem applyPatches_failure_records_no_finding :
    applyPatchesOutcome = (Except.ok false, escalationDB) ∧
    applyPatchesOutcome.2.findings = [] :=
  ⟨rfl, rfl⟩

/-- C7. A Generation Service response that claims success but carries an
empty change-set (an empty patches list in the returned JSON) is converted
by CopilotCLIInterface.execute_spec into a failure result carrying the
no-actionable-changes error, rather than a success. -/
theorem executeSpec_empty_changeset_failure (j : CopilotJsonOutput) (h : j.patches = []) :
    (executeSpecResultFromJson (some j)).success = false ∧
    (executeSpecResultFromJson (some j)).error_message =
      some "No actionable changes generated - patches field is empty" := by
  simp [executeSpecResultFromJson, h]

/-- Witness for C7 at a concrete JSON output with an empty patches array. -/
theorem executeSpec_empty_changeset_failure_witness :
    claimedSuccessJson.patches = [] ∧
    (executeSpecResultFromJson (some claimedSuccessJson)).success = false ∧
    (executeSpecResultFromJson (some claimedSuccessJson)).error_message =
      some "No actionable changes generated - patches field is empty" :=
  ⟨rfl, (executeSpec_empty_changeset_failure claimedSuccessJson rfl).1,
    (executeSpec_empty_changeset_failure claimedSuccessJson rfl).2⟩

/-- C8 counterexample. Two consecutive set-to-completed mutations of the
same phase leave the run counter at 2 while only one phase is completed, so
the claimed equality fails right after the second mutation commits: the
counter is incremented on every set-to-completed write, not only on
transitions into completed. -/
theorem completed_counter_double_count :
    (doubleCompleteOutcome.2.runs.map RunRow.completed_phases) = [2] ∧
    completedCount doubleCompleteOutcome.2.phases "run1" = 1 ∧
    ¬ runCountersMatch doubleCompleteOutcome.2 :=
  ⟨rfl, rfl, by decide⟩

/-- C8 (amended). After any update_phase_status commit, every run row
carries exactly the number of its phases in status completed, provided the
phase ids are unique, the equality held before the mutation, and the
mutation does not target a phase that is already completed (no
re-completion — the counter would double-count — and no move out of
completed — the counter never decrements). -/
theorem updatePhaseStatus_preserves_completed_counter (db : DB) (pid s : String)
    (hNodup : (db.phases.map PhaseRow.phase_id).Nodup)
    (hInv : runCountersMatch db)
    (hTerm : ∀ p ∈ db.phases, p.phase_id = pid → p.status ≠ "completed") :
    runCountersMatch (runOrc (updatePhaseStatus pid s) db).2 := by
  rw [runOrc_updatePhaseStatus]
  by_cases hv : s ∈ phaseStatusCheckValues
  · rw [if_pos hv]
    obtain ⟨hphases, hruns⟩ := applyPhaseStatusWrite_parts db pid s
    intro r' hr'
    rw [hphases, completedCount_setStatus db.phases pid s r'.run_id hNodup hTerm]
    rw [hruns] at hr'
    cases hlk : lookupPhase db.phases pid with
    | none =>
        simp only [hlk] at hr' ⊢
        simpa using hInv r' hr'
    | some p0 =>
        simp only [hlk] at hr' ⊢
        by_cases h1 : s = "in_progress"
        · rw [if_pos h1] at hr'
          obtain ⟨r, hr, rfl⟩ := List.mem_map.1 hr'
          have hbase := hInv r hr
          have hs : s ≠ "completed" := by rw [h1]; decide
          by_cases hR : r.run_id = p0.run_id <;> simp [hR, hs, hbase]
        · by_cases h2 : s = "completed"
          · rw [if_neg h1, if_pos h2] at hr'
            obtain ⟨r, hr, rfl⟩ := List.mem_map.1 hr'
            have hbase := hInv r hr
            by_cases hR : r.run_id = p0.run_id
            · simp [hR, h2, hbase]
            · have hR2 : ¬ p0.run_id = r.run_id := fun hx => hR hx.symm
              simp [hR, hR2, h2, hbase]
          · rw [if_neg h1, if_neg h2] at hr'
            have hbase := hInv r' hr'
            simp [h2, hbase]
  · rw [if_neg hv]
    exact hInv

/-- Witness for C8 (amended) at a concrete store: one executing run with one
pending phase, marked completed. -/
theorem updatePhaseStatus_preserves_completed_counter_witness :
    runCountersMatch (runOrc (updatePhaseStatus "p1" "completed") escalationDB).2 :=
  updatePhaseStatus_preserves_completed_counter escalationDB "p1" "completed"
    (by decide) (by decide) (by decide)

/-- C9. resume_phase with action resume on a paused phase with an open
ManualIntervention: the phase is set in_progress and the run executing, but
resolve_intervention is called with the past-tense value resumed, which the
manual_interventions.action_taken CHECK constraint rejects — a
DatabaseError is raised and the intervention is left unresolved, with no
action_taken persisted. This evaluates the source at the failing input of
the claim. -/
theorem resumePhase_fails_to_resolve_intervention :
    resumeOutcome.1 =
      Except.error (PyErr.databaseError
        "CHECK constraint failed on manual_interventions.action_taken") ∧
    (resumeOutcome.2.interventions.map fun i => (i.action_taken, i.resolved_at_set))
      = [(none, false)] ∧
    (resumeOutcome.2.phases.map PhaseRow.status) = ["in_progress"] ∧
    (resumeOutcome.2.runs.map RunRow.status) = ["executing"] :=
  ⟨rfl, rfl, rfl, rfl⟩

/-- C10. When a phase has no Execution record at the moment verification is
invoked, _run_verification returns a VerificationResult with passed true,
no findings, an all-zero findings summary and an empty checks_run list,
without touching the store: the phase passes verification vacuously. -/
theorem runVerification_without_execution_passes (db : DB) (phase : PhaseRow)
    (verdict : VerificationResult) (h : executionsForPhase db phase.phase_id = []) :
    runOrc (runVerificationForPhase phase verdict) db =
      (Except.ok vacuousVerificationResult, db) := by
  have h1 : latestExecution (executionsForPhase db phase.phase_id) = none := by
    rw [h]
    rfl
  calc runOrc (runVerificationForPhase phase verdict) db
      = runOrc (runVerificationAfterLookup phase verdict
          (latestExecution (executionsForPhase db phase.phase_id))) db := rfl
    _ = runOrc (runVerificationAfterLookup phase verdict none) db := by rw [h1]
    _ = (Except.ok vacuousVerificationResult, db) := rfl

/-- Witness for C10 at a concrete store whose phase has no execution rows. -/
theorem runVerification_without_execution_passes_witness :
    executionsForPhase escalationDB escalationPhase.phase_id = [] ∧
    runOrc (runVerificationForPhase escalationPhase vacuousVerificationResult) escalationDB =
      (Except.ok vacuousVerificationResult, escalationDB) :=
  ⟨rfl, runVerification_without_execution_passes escalationDB escalationPhase
      vacuousVerificationResult rfl⟩

end Orchestrator
